import Mathlib

/-!
Shallow embedding of the 247Theme client-side widgets and proofs about them.

The repository has three source files:
* `SilverchefCalculator` (finance-calculator modal): `openModal`,
  `calculatePayments`, `calculateStaticPayments`, `formatCurrency`;
* `BrandShowcase` (brand-directory alphabet filter): `filterByLetter`,
  `animateFilter`, `instantFilter`, `handleAlphabetClick`, `updateCounts`,
  `updateURL`, `getLetterFromURL`, `setFilter`, `getCurrentFilter`;
* `ComparisonShowcase` (mobile accordion): `handleToggle`, `expandBlock`,
  `collapseBlock`, `dispatchCustomEvent`.

JavaScript numbers are modelled as `ℚ` (every value the code manipulates is
an exact decimal; `Math.round x` is `⌊x + 1/2⌋`), `parseFloat` results as
`Option ℚ` with `none` for `NaN`, DOM state (classes, attributes, the URL
fragment, the history stack) as explicit record fields, and the two
`setTimeout` callbacks of the filter animation as an explicit queue of
pending timers whose delays are recorded in milliseconds.
-/

namespace Theme247

/-- `Math.round` in JavaScript: round half toward positive infinity. -/
def jsRound (x : ℚ) : ℤ := ⌊x + 1/2⌋

/-! ### Finance calculator (`SilverchefCalculator`, src/unnamed/part_000) -/

namespace Calculator

/-- Split a reversed digit list into groups of three, least significant first.
Helper for the thousands grouping of `Intl.NumberFormat` en-AU currency. -/
def chunk3 : List Char → List (List Char)
  | [] => []
  | [a] => [[a]]
  | [a, b] => [[a, b]]
  | a :: b :: c :: rest => [a, b, c] :: chunk3 rest

/-- Decimal representation of a natural number with a comma between each
group of three digits, as `Intl.NumberFormat` en-AU renders integer parts. -/
def groupedNat (n : Nat) : String :=
  let rev := (toString n).toList.reverse
  String.mk (List.intercalate [','] (((chunk3 rev).map List.reverse).reverse))

/-- Render an amount given in whole cents as an en-AU AUD currency string,
e.g. `1900 ↦ "$19.00"`, `100000 ↦ "$1,000.00"`. -/
def formatCents (cents : ℤ) : String :=
  let a := cents.natAbs
  let whole := a / 100
  let fr := a % 100
  let frStr := if fr < 10 then "0" ++ toString fr else toString fr
  (if cents < 0 then "-$" else "$") ++ groupedNat whole ++ "." ++ frStr

/-- `formatCurrency(amount)`: `Intl.NumberFormat('en-AU', currency AUD)`
formats with two fraction digits, rounding to whole cents; the values used by
this code are exact cent amounts, so the tie-breaking mode is immaterial. -/
def formatCurrency (amount : ℚ) : String := formatCents (jsRound (amount * 100))

/-- `results.upfront_costs.breakdown` in `calculateStaticPayments`. -/
structure UpfrontBreakdown where
  advance_payment : String
  bond : String
deriving DecidableEq, Repr

/-- `results.upfront_costs` in `calculateStaticPayments`. -/
structure UpfrontCosts where
  total : String
  breakdown : UpfrontBreakdown
deriving DecidableEq, Repr

/-- `results.totals` in `calculateStaticPayments`. -/
structure Totals where
  rent_after_12_months : String
  out_of_pocket : String
deriving DecidableEq, Repr

/-- The result object returned by `calculateStaticPayments`. -/
structure PaymentResults where
  finance_amount : String
  weekly_amount : String
  upfront_costs : UpfrontCosts
  totals : Totals
deriving DecidableEq, Repr

/-- `weeklyPayment = Math.round(amount * 0.019 * 100) / 100`. -/
def weeklyPaymentOf (amount : ℚ) : ℚ := (jsRound (amount * 0.019 * 100) : ℚ) / 100

/-- `securityBond = Math.round(amount * 0.1 * 100) / 100`. -/
def securityBondOf (amount : ℚ) : ℚ := (jsRound (amount * 0.1 * 100) : ℚ) / 100

/-- `calculateStaticPayments(amount)` from src/unnamed/part_000. -/
def calculateStaticPayments (amount : ℚ) : PaymentResults :=
  let weeklyPayment := weeklyPaymentOf amount
  let advancePayment := weeklyPayment
  let securityBond := securityBondOf amount
  let totalUpfront := advancePayment + securityBond
  let totalRent12Months := weeklyPayment * 52
  let outOfPocket := totalRent12Months
  { finance_amount := formatCurrency amount
    weekly_amount := formatCurrency weeklyPayment
    upfront_costs :=
      { total := formatCurrency totalUpfront
        breakdown :=
          { advance_payment := formatCurrency advancePayment
            bond := formatCurrency securityBond } }
    totals :=
      { rent_after_12_months := formatCurrency totalRent12Months
        out_of_pocket := formatCurrency outOfPocket } }

/-- Outcome of `calculatePayments`: either the validation/error message is
shown, or the computed results are shown. -/
inductive CalcOutcome where
  | error (message : String)
  | results (r : PaymentResults)
deriving DecidableEq, Repr

/-- The user-visible validation message of `calculatePayments`. -/
def validationMessage : String := "Please enter an amount of $500 or more."

/-- `calculatePayments` from src/unnamed/part_000, after
`parseFloat(this.amountInput.value)`. The argument is the parsed amount:
`none` models `NaN` (empty or non-numeric input). The guard in the source is
`if (!amount || amount < 500)`: `!amount` is true exactly for `NaN` and `0`.
The simulated API delay changes no state and is omitted. -/
def calculatePayments (parsed : Option ℚ) : CalcOutcome :=
  match parsed with
  | none => .error validationMessage
  | some amount =>
      if amount = 0 ∨ amount < 500 then .error validationMessage
      else .results (calculateStaticPayments amount)

/-- The amount-field update performed by `openModal`: the trigger element's
`data-product-price` attribute (cents) is coerced to a number (`none` models
a value that coerces to `NaN`; a missing attribute coerces to `0`, which is
covered by `some 0`), `productAmount = Math.round(productPrice / 100)`, and
the field is overwritten only when `productAmount >= 500`. -/
def openModalAmount (price : Option ℚ) (existing : Option ℤ) : Option ℤ :=
  match price with
  | none => existing
  | some p =>
      let productAmount := jsRound (p / 100)
      if 500 ≤ productAmount then some productAmount else existing

end Calculator

/-! ### Brand showcase (`BrandShowcase`, src/unnamed/part_001) -/

namespace Brand

/-- The `options` object: `enableAnimation` and `animationDuration` (ms). -/
structure BrandOptions where
  enableAnimation : Bool
  animationDuration : ℚ
deriving DecidableEq, Repr

/-- A brand card: its `data-letter` attribute, whether it carries the
`filtering-hide` / `filtering-show` classes, and whether `style.display`
shows it (used by the instant, non-animated path). -/
structure Card where
  letter : String
  hideClass : Bool
  showClass : Bool
  displayed : Bool
deriving DecidableEq, Repr

/-- An alphabet button: its `data-letter`, its `disabled` property and
whether it carries the `active` class (`aria-pressed` mirrors `active`). -/
structure AlphabetButton where
  letter : String
  disabled : Bool
  active : Bool
deriving DecidableEq, Repr

/-- The two `setTimeout` callbacks inside `animateFilter`: the first shows
the matching cards, the second finishes the transition. -/
inductive AnimPhase where
  | showCards (letter : String)
  | finish
deriving DecidableEq, Repr

/-- A pending `setTimeout`: its delay in milliseconds and its callback. -/
structure PendingTimer where
  delay : ℚ
  phase : AnimPhase
deriving DecidableEq, Repr

/-- The observable state of one `BrandShowcase` instance: its options, the
cards and alphabet buttons in its subtree, `this.currentFilter`,
`this.isAnimating`, the window's URL fragment, the entries pushed onto the
session history (`history.pushState`), whether the empty-state panel is
shown, and the queue of pending animation timers. The transient
screen-reader announcement node is not modelled. -/
structure BrandState where
  opts : BrandOptions
  cards : List Card
  buttons : List AlphabetButton
  currentFilter : String
  isAnimating : Bool
  urlHash : Option String
  history : List (Option String)
  emptyShown : Bool
  timers : List PendingTimer
deriving DecidableEq, Repr

/-- `cardMatchesFilter(card, letter)`. -/
def cardMatchesFilter (card : Card) (letter : String) : Bool :=
  if letter = "all" then true else card.letter = letter

/-- `updateActiveButton(letter)`: each button's `active` class and
`aria-pressed` become whether its letter equals the new filter. -/
def updateActiveButton (letter : String) (s : BrandState) : BrandState :=
  { s with buttons := s.buttons.map fun b => { b with active := b.letter = letter } }

/-- `updateURL(letter)`: for a falsy or `'all'` letter, push a hash-less
entry when a fragment is present (and do nothing otherwise); for any other
letter, always push an entry whose fragment is `#letter-` followed by the
letter. `history.pushState` both appends an entry and replaces the current
location. -/
def updateURL (letter : String) (s : BrandState) : BrandState :=
  if letter = "" ∨ letter = "all" then
    match s.urlHash with
    | some _ => { s with urlHash := none, history := s.history ++ [none] }
    | none => s
  else
    { s with
        urlHash := some ("#letter-" ++ letter)
        history := s.history ++ [some ("#letter-" ++ letter)] }

/-- `cleanupFilterClasses()`: remove `filtering-hide` and `filtering-show`
from every card. -/
def cleanupFilterClasses (cards : List Card) : List Card :=
  cards.map fun card => { card with hideClass := false, showClass := false }

/-- `animateFilter(letter)`, up to its first `setTimeout`: set
`isAnimating`, add `filtering-hide` (and drop `filtering-show`) on every
non-matching card, and schedule the show phase after
`animationDuration / 2` milliseconds. -/
def animateFilter (letter : String) (s : BrandState) : BrandState :=
  { s with
      isAnimating := true
      cards := s.cards.map fun card =>
        if cardMatchesFilter card letter then card
        else { card with hideClass := true, showClass := false }
      timers := s.timers ++ [⟨s.opts.animationDuration / 2, .showCards letter⟩] }

/-- Run one pending animation callback. `showCards letter` is the body of
the outer `setTimeout` in `animateFilter`: add `filtering-show` (and drop
`filtering-hide`) on each matching card, call `updateEmptyState` with
whether the matching set is empty, and schedule the finish phase after
`animationDuration` milliseconds. `finish` is the inner `setTimeout`: clear
`isAnimating` and call `cleanupFilterClasses`. -/
def runAnimPhase (phase : AnimPhase) (s : BrandState) : BrandState :=
  match phase with
  | .showCards letter =>
      { s with
          cards := s.cards.map fun card =>
            if cardMatchesFilter card letter then
              { card with hideClass := false, showClass := true }
            else card
          emptyShown := (s.cards.filter (fun c => cardMatchesFilter c letter)).length = 0
          timers := s.timers ++ [⟨s.opts.animationDuration, .finish⟩] }
  | .finish =>
      { s with isAnimating := false, cards := cleanupFilterClasses s.cards }

/-- `instantFilter(letter)`: set each card's display by whether it matches,
then `updateEmptyState` with whether the matching set is empty. -/
def instantFilter (letter : String) (s : BrandState) : BrandState :=
  { s with
      cards := s.cards.map fun card =>
        { card with displayed := cardMatchesFilter card letter }
      emptyShown := (s.cards.filter (fun c => cardMatchesFilter c letter)).length = 0 }

/-- `filterByLetter(letter, updateHistory = true)` from src/unnamed/part_001:
return unchanged when `isAnimating && enableAnimation`; otherwise set
`currentFilter`, update the active button, run the animated or instant
filter, and push the URL when `updateHistory` is set. The screen-reader
announcement at the end touches none of the modelled state. -/
def filterByLetter (letter : String) (updateHistory : Bool) (s : BrandState) : BrandState :=
  if s.isAnimating && s.opts.enableAnimation then s
  else
    let s1 := updateActiveButton letter { s with currentFilter := letter }
    let s2 := if s.opts.enableAnimation then animateFilter letter s1 else instantFilter letter s1
    if updateHistory then updateURL letter s2 else s2

/-- `handleAlphabetClick` for a click on button `b`: return when
`isAnimating`, when the button is disabled, or when its letter is already
the current filter; otherwise `filterByLetter(letter)` (which itself pushes
the URL) followed by a second `updateURL(letter)`. -/
def handleAlphabetClick (b : AlphabetButton) (s : BrandState) : BrandState :=
  if s.isAnimating then s
  else if b.disabled ∨ b.letter = s.currentFilter then s
  else updateURL b.letter (filterByLetter b.letter true s)

/-- Public `setFilter(letter)`: just `filterByLetter(letter)`. -/
def setFilter (letter : String) (s : BrandState) : BrandState :=
  filterByLetter letter true s

/-- Public `getCurrentFilter()`. -/
def getCurrentFilter (s : BrandState) : String := s.currentFilter

/-- `updateCounts()`: every button other than `all` is disabled (and gets
the disabled class) exactly when no card carries its letter. -/
def updateCounts (s : BrandState) : BrandState :=
  { s with
      buttons := s.buttons.map fun b =>
        if b.letter = "all" then b
        else { b with disabled := !(s.cards.any fun c => c.letter = b.letter) } }

/-- `getLetterFromURL()` from src/unnamed/part_001: if the fragment starts
with `#letter-`, return everything after those eight characters
(`hash.substring(8)`); otherwise return `all`. The fragment is ASCII here,
so the code-unit operations of the source coincide with character lists. -/
def getLetterFromURL (hash : String) : String :=
  if hash.data.take 8 = "#letter-".data then String.mk (hash.data.drop 8) else "all"

end Brand

/-! ### Comparison showcase (`ComparisonShowcase`, src/assets/comparison-showcase.js) -/

namespace Comparison

/-- One `.comparison-showcase__mobile-block`: its `data-mobile-side`
attribute and its `data-mobile-state` attribute
(`"expanded"` or `"collapsed"`). -/
structure MobileBlock where
  side : String
  state : String
deriving DecidableEq, Repr

/-- A dispatched `CustomEvent`: its name (`comparison:expanded` or
`comparison:collapsed`) and its `detail` (the block, identified by its
position in the block list, and the block's `data-mobile-side`). -/
structure BlockEvent where
  name : String
  blockIndex : Nat
  side : String
deriving DecidableEq, Repr

/-- The state of one `comparison-showcase` element: whether
`window.innerWidth < 900` (`isMobileView()`), and its mobile blocks in
document order. -/
structure ComparisonState where
  isMobile : Bool
  blocks : List MobileBlock
deriving DecidableEq, Repr

/-- `expandBlock(block)`: set `data-mobile-state` to `expanded`. -/
def expandBlock (b : MobileBlock) : MobileBlock := { b with state := "expanded" }

/-- `collapseBlock(block)`: set `data-mobile-state` to `collapsed`. -/
def collapseBlock (b : MobileBlock) : MobileBlock := { b with state := "collapsed" }

/-- The `mobileBlocks.forEach` loop of `handleToggle`, with `i` the index of
the first block of the remaining list: the block at position `target` is
expanded, every other block collapsed, and each call to `expandBlock` /
`collapseBlock` dispatches its custom event unconditionally. Returns the
updated blocks and the dispatched events in order. -/
def toggleBlocksFrom (target i : Nat) : List MobileBlock → List MobileBlock × List BlockEvent
  | [] => ([], [])
  | b :: rest =>
      let tail := toggleBlocksFrom target (i + 1) rest
      if i = target then
        (expandBlock b :: tail.1, ⟨"comparison:expanded", i, b.side⟩ :: tail.2)
      else
        (collapseBlock b :: tail.1, ⟨"comparison:collapsed", i, b.side⟩ :: tail.2)

/-- `handleToggle` for a click on the toggle of the block at position
`target`: a no-op (and no events) unless `isMobileView()`; otherwise run the
forEach loop over all blocks. -/
def handleToggle (target : Nat) (s : ComparisonState) : ComparisonState × List BlockEvent :=
  if s.isMobile then
    let r := toggleBlocksFrom target 0 s.blocks
    ({ s with blocks := r.1 }, r.2)
  else (s, [])

end Comparison

/-! ### Concrete example states used by witnesses and counterexamples -/

namespace Brand

/-- Options with animation enabled and the default 300 ms duration. -/
def exOpts : BrandOptions := { enableAnimation := true, animationDuration := 300 }

/-- A card whose `data-letter` is `B`, idle. -/
def exCardB : Card := { letter := "B", hideClass := false, showClass := false, displayed := true }

/-- A card whose `data-letter` is `C`, idle. -/
def exCardC : Card := { letter := "C", hideClass := false, showClass := false, displayed := true }

/-- A showcase with cards `B` and `C`, current filter `B`, not animating, the
fragment `#letter-B` in the address bar and one pushed history entry. -/
def exStateB : BrandState :=
  { opts := exOpts
    cards := [exCardB, exCardC]
    buttons := [⟨"all", false, false⟩, ⟨"B", false, true⟩, ⟨"C", false, false⟩]
    currentFilter := "B"
    isAnimating := false
    urlHash := some "#letter-B"
    history := [some "#letter-B"]
    emptyShown := false
    timers := [] }

/-- The same showcase in the middle of a filter transition. -/
def exStateAnim : BrandState := { exStateB with isAnimating := true }

/-- A showcase whose only card is lettered `B` and whose only alphabet button
is `Q`; no card matches `Q`. -/
def exStateQ : BrandState :=
  { opts := exOpts
    cards := [exCardB]
    buttons := [⟨"Q", false, false⟩]
    currentFilter := "all"
    isAnimating := false
    urlHash := none
    history := []
    emptyShown := false
    timers := [] }

end Brand

namespace Comparison

/-- Two comparison blocks on a narrow viewport: the left block is already
expanded and the right one collapsed. -/
def exComp : ComparisonState :=
  { isMobile := true
    blocks := [⟨"left", "expanded"⟩, ⟨"right", "collapsed"⟩] }

end Comparison

/-! ### Claim theorems -/

open Calculator Brand Comparison

/-- Claim C1: whenever `isAnimating` is set and animation is enabled, any
call to `filterByLetter` (with either history flag) and any click handled by
`handleAlphabetClick` returns with the state — current filter, cards, URL,
history, timers — completely unchanged, so no second animation is started
and no two filter animations overlap. -/
theorem c1_no_overlapping_animations (s : BrandState) (letter : String)
    (b : AlphabetButton) (upd : Bool)
    (h1 : s.isAnimating = true) (h2 : s.opts.enableAnimation = true) :
    filterByLetter letter upd s = s ∧ handleAlphabetClick b s = s := by
  constructor
  · simp [filterByLetter, h1, h2]
  · simp [handleAlphabetClick, h1]

/-- Witness for C1 at a concrete mid-transition state. -/
theorem c1_no_overlapping_animations_witness :
    filterByLetter "C" true exStateAnim = exStateAnim ∧
    handleAlphabetClick ⟨"C", false, false⟩ exStateAnim = exStateAnim :=
  c1_no_overlapping_animations exStateAnim "C" ⟨"C", false, false⟩ true
    (by decide) (by decide)

/-- Claim C2: for amount 1000, `calculateStaticPayments` renders a weekly
payment of `$19.00`, a bond of `$100.00`, a total upfront of `$119.00`
(weekly payment plus bond, `119`) and a 12-month rent total of `$988.00`
(weekly payment times 52, `988`); in general the weekly payment is
`round(amount * 0.019 * 100) / 100` and the bond is
`round(amount * 0.1 * 100) / 100`. -/
theorem c2_calculator_values_at_1000 :
    (calculateStaticPayments 1000).weekly_amount = "$19.00" ∧
    (calculateStaticPayments 1000).upfront_costs.breakdown.bond = "$100.00" ∧
    (calculateStaticPayments 1000).upfront_costs.total = "$119.00" ∧
    (calculateStaticPayments 1000).totals.rent_after_12_months = "$988.00" ∧
    weeklyPaymentOf 1000 = 19 ∧
    securityBondOf 1000 = 100 ∧
    weeklyPaymentOf 1000 + securityBondOf 1000 = 119 ∧
    weeklyPaymentOf 1000 * 52 = 988 ∧
    (∀ amount : ℚ,
      weeklyPaymentOf amount = (jsRound (amount * 0.019 * 100) : ℚ) / 100 ∧
      securityBondOf amount = (jsRound (amount * 0.1 * 100) : ℚ) / 100) := by
  have hw : weeklyPaymentOf 1000 = 19 := by norm_num [weeklyPaymentOf, jsRound]
  have hb : securityBondOf 1000 = 100 := by norm_num [securityBondOf, jsRound]
  have f19 : formatCurrency 19 = "$19.00" := by
    have h : jsRound ((19 : ℚ) * 100) = 1900 := by norm_num [jsRound]
    simp only [formatCurrency, h]; decide
  have f100 : formatCurrency 100 = "$100.00" := by
    have h : jsRound ((100 : ℚ) * 100) = 10000 := by norm_num [jsRound]
    simp only [formatCurrency, h]; decide
  have f119 : formatCurrency 119 = "$119.00" := by
    have h : jsRound ((119 : ℚ) * 100) = 11900 := by norm_num [jsRound]
    simp only [formatCurrency, h]; decide
  have f988 : formatCurrency 988 = "$988.00" := by
    have h : jsRound ((988 : ℚ) * 100) = 98800 := by norm_num [jsRound]
    simp only [formatCurrency, h]; decide
  refine ⟨?_, ?_, ?_, ?_, hw, hb, ?_, ?_, fun amount => ⟨rfl, rfl⟩⟩
  · show formatCurrency (weeklyPaymentOf 1000) = "$19.00"
    rw [hw, f19]
  · show formatCurrency (securityBondOf 1000) = "$100.00"
    rw [hb, f100]
  · show formatCurrency (weeklyPaymentOf 1000 + securityBondOf 1000) = "$119.00"
    rw [hw, hb, show (19 : ℚ) + 100 = 119 by norm_num, f119]
  · show formatCurrency (weeklyPaymentOf 1000 * 52) = "$988.00"
    rw [hw, show (19 : ℚ) * 52 = 988 by norm_num, f988]
  · rw [hw, hb]; norm_num
  · rw [hw]; norm_num

/-- Claim C3: `calculatePayments` rejects exactly the parsed amounts that
are absent/non-numeric (`none`), zero, or strictly below 500, showing the
validation message and computing no results; every amount at least 500
proceeds to the computed results; 499 in particular is rejected. -/
theorem c3_amount_validation :
    calculatePayments none = .error validationMessage ∧
    (∀ a : ℚ, a = 0 ∨ a < 500 → calculatePayments (some a) = .error validationMessage) ∧
    (∀ a : ℚ, 500 ≤ a → calculatePayments (some a) = .results (calculateStaticPayments a)) ∧
    calculatePayments (some 499) = .error validationMessage := by
  refine ⟨rfl, ?_, ?_, ?_⟩
  · intro a h
    simp only [calculatePayments]
    rw [if_pos h]
  · intro a h
    simp only [calculatePayments]
    rw [if_neg]
    rintro (h0 | hlt)
    · rw [h0] at h; norm_num at h
    · linarith
  · simp only [calculatePayments]
    rw [if_pos (Or.inr (by norm_num))]

/-- Witness for C3: 1000 is accepted, 499 is rejected. -/
theorem c3_amount_validation_witness :
    calculatePayments (some 1000) = .results (calculateStaticPayments 1000) ∧
    calculatePayments (some 499) = .error validationMessage :=
  ⟨c3_amount_validation.2.2.1 1000 (by decide), c3_amount_validation.2.2.2⟩

/-- Rounded whole-dollar amount of the concrete price 49949 cents is 499,
which is below the prefill threshold. -/
theorem exPriceLow_amount : jsRound ((49949 : ℚ) / 100) < 500 := by
  norm_num [jsRound]

/-- Rounded whole-dollar amount of the concrete price 50000 cents is 500. -/
theorem exPriceHigh_amount : (500 : ℤ) ≤ jsRound ((50000 : ℚ) / 100) := by
  norm_num [jsRound]

/-- Claim C10: `openModal` overwrites the amount field with the rounded
whole-dollar product price exactly when that rounded value is at least 500;
a missing/non-numeric price or one rounding below 500 leaves the field's
existing value unchanged. -/
theorem c10_prefill_threshold :
    (∀ e, openModalAmount none e = e) ∧
    (∀ (p : ℚ) (e : Option ℤ), jsRound (p / 100) < 500 →
      openModalAmount (some p) e = e) ∧
    (∀ (p : ℚ) (e : Option ℤ), 500 ≤ jsRound (p / 100) →
      openModalAmount (some p) e = some (jsRound (p / 100))) := by
  refine ⟨fun e => rfl, ?_, ?_⟩
  · intro p e h
    simp only [openModalAmount]
    rw [if_neg (by omega)]
  · intro p e h
    simp only [openModalAmount]
    rw [if_pos h]

/-- Witness for C10: price 49949 cents rounds to 499 dollars and leaves the
field alone; price 50000 cents rounds to 500 dollars and overwrites it. -/
theorem c10_prefill_threshold_witness :
    openModalAmount (some 49949) (some 7) = some 7 ∧
    openModalAmount (some 50000) (some 7) = some (jsRound ((50000 : ℚ) / 100)) :=
  ⟨c10_prefill_threshold.2.1 49949 (some 7) exPriceLow_amount,
   c10_prefill_threshold.2.2 50000 (some 7) exPriceHigh_amount⟩

/-- `updateURL` never changes the current filter. -/
theorem updateURL_currentFilter (letter : String) (s : BrandState) :
    (updateURL letter s).currentFilter = s.currentFilter := by
  unfold updateURL
  split
  · split <;> rfl
  · rfl

/-- `updateURL` never changes the animation flag. -/
theorem updateURL_isAnimating (letter : String) (s : BrandState) :
    (updateURL letter s).isAnimating = s.isAnimating := by
  unfold updateURL
  split
  · split <;> rfl
  · rfl

/-- When the animation mutex does not block it, `filterByLetter` sets the
current filter to the requested letter. -/
theorem filterByLetter_currentFilter (letter : String) (upd : Bool) (s : BrandState)
    (h : (s.isAnimating && s.opts.enableAnimation) = false) :
    (filterByLetter letter upd s).currentFilter = letter := by
  unfold filterByLetter
  rw [if_neg (by simp [h])]
  cases he : s.opts.enableAnimation <;> cases upd <;>
    simp [updateURL_currentFilter, animateFilter, instantFilter, updateActiveButton]

/-- Claim C4 counterexample: the fragment `#letter-xyz` is not `#letter-`
followed by a single character (of any case), yet `getLetterFromURL`
reconstructs `xyz` from it rather than defaulting to `all`. -/
theorem c4_counterexample :
    getLetterFromURL "#letter-xyz" = "xyz" ∧
    ("xyz" : String) ≠ "all" ∧
    ∀ c : Char, ("#letter-xyz" : String).data ≠ ("#letter-" : String).data ++ [c] := by
  refine ⟨by decide, by decide, ?_⟩
  intro c h
  have h2 := congrArg List.length h
  simp at h2

/-- Claim C4 as amended: `getLetterFromURL` yields `all` exactly for
fragments that do not begin with the eight characters `#letter-`; any
fragment that does begin with them yields the entire remainder after the
tag, with no validation that the remainder is a single uppercase letter. -/
theorem c4_fragment_decoding (hash : String) :
    (hash.data.take 8 ≠ ("#letter-" : String).data → getLetterFromURL hash = "all") ∧
    (hash.data.take 8 = ("#letter-" : String).data →
      getLetterFromURL hash = String.mk (hash.data.drop 8)) := by
  constructor <;> intro h <;> simp [getLetterFromURL, h]

/-- Witness for C4 (amended): a fragment without the tag decodes to `all`,
and `#letter-B` decodes to `B`. -/
theorem c4_fragment_decoding_witness :
    getLetterFromURL "#foo" = "all" ∧
    getLetterFromURL "#letter-B" = String.mk (("#letter-B" : String).data.drop 8) :=
  ⟨(c4_fragment_decoding "#foo").1 (by decide),
   (c4_fragment_decoding "#letter-B").2 (by decide)⟩

/-- Claim C5 counterexample: in a state whose current filter is already `B`
and which is idle, the public `setFilter "B"` is not a no-op: it starts a
second animation (`isAnimating` becomes true) and pushes a duplicate
`#letter-B` history entry. -/
theorem c5_counterexample :
    exStateB.currentFilter = "B" ∧
    exStateB.isAnimating = false ∧
    (setFilter "B" exStateB).isAnimating = true ∧
    (setFilter "B" exStateB).history = exStateB.history ++ [some "#letter-B"] := by
  refine ⟨rfl, rfl, ?_, ?_⟩ <;> decide

/-- Claim C5 as amended: requesting the letter that is already current is a
no-op via the click handler, which checks `letter === this.currentFilter`;
the public `setFilter`/`filterByLetter` entry point has no such guard — on
an idle controller with animation enabled it starts a fresh animation (and
pushes history again) — though the current filter itself keeps its value. -/
theorem c5_same_letter (s : BrandState) (b : AlphabetButton)
    (h : b.letter = s.currentFilter) (hidle : s.isAnimating = false) :
    handleAlphabetClick b s = s ∧
    getCurrentFilter (setFilter s.currentFilter s) = s.currentFilter ∧
    (s.opts.enableAnimation = true → (setFilter s.currentFilter s).isAnimating = true) := by
  refine ⟨?_, ?_, ?_⟩
  · simp [handleAlphabetClick, hidle, h]
  · simpa [setFilter, getCurrentFilter] using
      filterByLetter_currentFilter s.currentFilter true s (by simp [hidle])
  · intro he
    unfold setFilter filterByLetter
    rw [if_neg (by simp [hidle])]
    simp [he, updateURL_isAnimating, animateFilter]

/-- Witness for C5 (amended) at the concrete idle state with filter `B`. -/
theorem c5_same_letter_witness :
    handleAlphabetClick ⟨"B", false, true⟩ exStateB = exStateB ∧
    getCurrentFilter (setFilter exStateB.currentFilter exStateB) = exStateB.currentFilter ∧
    (setFilter exStateB.currentFilter exStateB).isAnimating = true :=
  ⟨(c5_same_letter exStateB ⟨"B", false, true⟩ (by decide) (by decide)).1,
   (c5_same_letter exStateB ⟨"B", false, true⟩ (by decide) (by decide)).2.1,
   (c5_same_letter exStateB ⟨"B", false, true⟩ (by decide) (by decide)).2.2 (by decide)⟩

/-- Claim C6 counterexample: no card of `exStateQ` is lettered `Q`, and
`updateCounts` duly disables the `Q` button — yet a direct invocation of the
public `setFilter "Q"` makes `Q` the current filter anyway, so
`getCurrentFilter` does not return the previous filter `all`. -/
theorem c6_counterexample :
    (exStateQ.cards.any fun c => c.letter = "Q") = false ∧
    (updateCounts exStateQ).buttons = [⟨"Q", true, false⟩] ∧
    getCurrentFilter (updateCounts exStateQ) = "all" ∧
    getCurrentFilter (setFilter "Q" (updateCounts exStateQ)) = "Q" := by
  refine ⟨?_, ?_, ?_, ?_⟩ <;> decide

/-- Claim C6 as amended: a letter with zero matching cards is disabled by
`updateCounts`, and a disabled button makes the click handler a no-op, so
such a letter is never selectable through the UI; but the public
`setFilter`/`filterByLetter` methods perform no disabled-letter check — on
an idle controller they set the current filter to any requested letter,
including one with zero matching cards. -/
theorem c6_disabled_letters (s : BrandState) (b : AlphabetButton) (letter : String)
    (hmem : b ∈ (updateCounts s).buttons) (hall : b.letter ≠ "all")
    (hnone : (s.cards.any fun c => c.letter = b.letter) = false)
    (hidle : s.isAnimating = false) :
    b.disabled = true ∧
    handleAlphabetClick b s = s ∧
    getCurrentFilter (setFilter letter s) = letter := by
  have hd : b.disabled = true := by
    simp only [updateCounts, List.mem_map] at hmem
    obtain ⟨a, _, rfl⟩ := hmem
    by_cases hA : a.letter = "all"
    · simp [hA] at hall
    · simp only [if_neg hA] at hnone ⊢
      simp [hnone]
  refine ⟨hd, ?_, ?_⟩
  · simp [handleAlphabetClick, hidle, hd]
  · simpa [setFilter, getCurrentFilter] using
      filterByLetter_currentFilter letter true s (by simp [hidle])

/-- Witness for C6 (amended) at the concrete state whose only button is the
zero-card letter `Q`. -/
theorem c6_disabled_letters_witness :
    (⟨"Q", true, false⟩ : AlphabetButton).disabled = true ∧
    handleAlphabetClick ⟨"Q", true, false⟩ exStateQ = exStateQ ∧
    getCurrentFilter (setFilter "Q" exStateQ) = "Q" :=
  c6_disabled_letters exStateQ ⟨"Q", true, false⟩ "Q"
    (by decide) (by decide) (by decide) (by decide)

/-- Claim C9 counterexample: with the configured duration of 300 ms, the
delay `animateFilter` schedules before the show phase is 150 ms
(`animationDuration / 2`), not a delay equal to the configured duration. -/
theorem c9_counterexample :
    exStateB.opts.animationDuration = 300 ∧
    (animateFilter "C" exStateB).timers.map PendingTimer.delay = [150] ∧
    (150 : ℚ) ≠ 300 := by
  refine ⟨rfl, ?_, by norm_num⟩
  simp only [animateFilter, exStateB, exOpts, List.nil_append, List.map_cons, List.map_nil]
  norm_num

/-- Claim C9 as amended: the transition follows the stated step order, but
the two delays are not equal — the first is half the configured duration and
the second the full duration. `animateFilter` immediately puts the hide
class on each non-matching card and schedules the show phase after
`animationDuration / 2` ms; the show phase puts the show class on each
matching card, sets the empty-state panel by whether the matching set is
empty, and schedules the finish phase after `animationDuration` ms; the
finish phase clears the transition flag and strips the transient classes
from every card. -/
theorem c9_two_phase_animation (s : BrandState) (letter : String) :
    ((animateFilter letter s).isAnimating = true ∧
     (animateFilter letter s).cards = s.cards.map (fun card =>
        if cardMatchesFilter card letter then card
        else { card with hideClass := true, showClass := false }) ∧
     (animateFilter letter s).timers =
        s.timers ++ [⟨s.opts.animationDuration / 2, .showCards letter⟩]) ∧
    (∀ t : BrandState,
      (runAnimPhase (.showCards letter) t).cards = t.cards.map (fun card =>
        if cardMatchesFilter card letter then
          { card with hideClass := false, showClass := true }
        else card) ∧
      ((runAnimPhase (.showCards letter) t).emptyShown = true ↔
        (t.cards.filter fun c => cardMatchesFilter c letter).length = 0) ∧
      (runAnimPhase (.showCards letter) t).timers =
        t.timers ++ [⟨t.opts.animationDuration, .finish⟩]) ∧
    (∀ t : BrandState,
      (runAnimPhase .finish t).isAnimating = false ∧
      (runAnimPhase .finish t).cards = cleanupFilterClasses t.cards) := by
  refine ⟨⟨rfl, rfl, rfl⟩, fun t => ⟨rfl, ?_, rfl⟩, fun t => ⟨rfl, rfl⟩⟩
  simp [runAnimPhase]

/-- The forEach loop of `handleToggle` keeps the number of blocks. -/
theorem toggleBlocksFrom_fst_length (target i : Nat) (bs : List MobileBlock) :
    (toggleBlocksFrom target i bs).1.length = bs.length := by
  induction bs generalizing i with
  | nil => rfl
  | cons b rest ih =>
    simp only [toggleBlocksFrom]
    split <;> simp [ih]

/-- The forEach loop of `handleToggle` fires one event per block. -/
theorem toggleBlocksFrom_snd_length (target i : Nat) (bs : List MobileBlock) :
    (toggleBlocksFrom target i bs).2.length = bs.length := by
  induction bs generalizing i with
  | nil => rfl
  | cons b rest ih =>
    simp only [toggleBlocksFrom]
    split <;> simp [ih]

/-- Block `j` of the loop's result: expanded when its absolute position
`i + j` is the clicked one, collapsed otherwise. -/
theorem toggleBlocksFrom_fst_getElem? (target i j : Nat) (bs : List MobileBlock) :
    ((toggleBlocksFrom target i bs).1)[j]? =
      (bs[j]?).map fun b =>
        if i + j = target then expandBlock b else collapseBlock b := by
  induction bs generalizing i j with
  | nil => simp [toggleBlocksFrom]
  | cons b rest ih =>
    cases j with
    | zero =>
      simp only [toggleBlocksFrom, Nat.add_zero]
      split <;> simp
    | succ j =>
      have harith : i + (j + 1) = i + 1 + j := by omega
      simp only [toggleBlocksFrom]
      split <;>
        (dsimp only
         rw [List.getElem?_cons_succ, List.getElem?_cons_succ]
         simp only [harith]
         exact ih (i + 1) j)

/-- Event `j` of the loop: an `expanded` event when the absolute position is
the clicked one and a `collapsed` event otherwise, fired unconditionally. -/
theorem toggleBlocksFrom_snd_getElem? (target i j : Nat) (bs : List MobileBlock) :
    ((toggleBlocksFrom target i bs).2)[j]? =
      (bs[j]?).map fun b =>
        if i + j = target then
          (⟨"comparison:expanded", i + j, b.side⟩ : BlockEvent)
        else ⟨"comparison:collapsed", i + j, b.side⟩ := by
  induction bs generalizing i j with
  | nil => simp [toggleBlocksFrom]
  | cons b rest ih =>
    cases j with
    | zero =>
      simp only [toggleBlocksFrom, Nat.add_zero]
      split <;> simp_all
    | succ j =>
      have harith : i + (j + 1) = i + 1 + j := by omega
      simp only [toggleBlocksFrom]
      split <;>
        (dsimp only
         rw [List.getElem?_cons_succ, List.getElem?_cons_succ]
         simp only [harith]
         exact ih (i + 1) j)

/-- Running the forEach loop a second time over its own output changes
nothing: the block states and the fired events repeat. -/
theorem toggleBlocksFrom_idem (target i : Nat) (bs : List MobileBlock) :
    toggleBlocksFrom target i (toggleBlocksFrom target i bs).1 =
      toggleBlocksFrom target i bs := by
  induction bs generalizing i with
  | nil => rfl
  | cons b rest ih =>
    simp only [toggleBlocksFrom]
    split <;> rename_i h <;>
      simp [toggleBlocksFrom, expandBlock, collapseBlock, ih, h]

/-- Claim C7: on a narrow viewport, after `handleToggle` runs for the block
at position `target`, that block's `data-mobile-state` is `expanded` and
every other block's is `collapsed`; running the handler for the same block
twice leaves the state exactly as after the first run, so at most one block
is ever expanded after any toggle. -/
theorem c7_accordion_exclusivity (s : ComparisonState) (target : Nat)
    (hm : s.isMobile = true) (ht : target < s.blocks.length) :
    (∀ j, j < s.blocks.length →
      (((handleToggle target s).1.blocks[j]?).map MobileBlock.state) =
        some (if j = target then "expanded" else "collapsed")) ∧
    (handleToggle target (handleToggle target s).1).1 = (handleToggle target s).1 := by
  constructor
  · intro j hj
    simp only [handleToggle, hm, if_true]
    rw [toggleBlocksFrom_fst_getElem?]
    rw [List.getElem?_eq_getElem hj]
    simp only [Nat.zero_add, Option.map_map, Option.map_some]
    split <;> rfl
  · simp only [handleToggle, hm, if_true]
    simp [toggleBlocksFrom_idem]

/-- Witness for C7 at the concrete two-block state, clicking block 1. -/
theorem c7_accordion_exclusivity_witness :
    (((handleToggle 1 exComp).1.blocks[0]?).map MobileBlock.state) =
      some (if 0 = 1 then "expanded" else "collapsed") ∧
    (handleToggle 1 (handleToggle 1 exComp).1).1 = (handleToggle 1 exComp).1 :=
  ⟨(c7_accordion_exclusivity exComp 1 (by decide) (by decide)).1 0 (by decide),
   (c7_accordion_exclusivity exComp 1 (by decide) (by decide)).2⟩

/-- Claim C8 counterexample: in `exComp` the left block is already expanded
and the right already collapsed, so clicking the left toggle changes no
block's state — yet `handleToggle` still fires an `expanded` event for block
0 and a `collapsed` event for block 1; the claim requires zero events
here. -/
theorem c8_counterexample :
    (handleToggle 0 exComp).1 = exComp ∧
    (handleToggle 0 exComp).2 =
      [⟨"comparison:expanded", 0, "left"⟩, ⟨"comparison:collapsed", 1, "right"⟩] := by
  refine ⟨?_, ?_⟩ <;> decide

/-- Claim C8 as amended: on a narrow viewport every toggle click fires one
event per block, unconditionally — `comparison:expanded` for the clicked
block and `comparison:collapsed` for every other, each carrying the block's
identity and side tag — regardless of whether the block's state actually
changed. -/
theorem c8_events_per_block (s : ComparisonState) (target : Nat)
    (hm : s.isMobile = true) :
    ((handleToggle target s).2).length = s.blocks.length ∧
    ∀ j, j < s.blocks.length →
      ((handleToggle target s).2)[j]? =
        ((s.blocks[j]?).map fun b =>
          if j = target then
            (⟨"comparison:expanded", j, b.side⟩ : BlockEvent)
          else ⟨"comparison:collapsed", j, b.side⟩) := by
  constructor
  · simp only [handleToggle, hm, if_true]
    exact toggleBlocksFrom_snd_length target 0 s.blocks
  · intro j hj
    simp only [handleToggle, hm, if_true]
    rw [toggleBlocksFrom_snd_getElem?]
    simp [Nat.zero_add]

/-- Witness for C8 (amended) at the concrete two-block state. -/
theorem c8_events_per_block_witness :
    ((handleToggle 0 exComp).2).length = exComp.blocks.length ∧
    ((handleToggle 0 exComp).2)[1]? =
      ((exComp.blocks[1]?).map fun b =>
        if 1 = 0 then
          (⟨"comparison:expanded", 1, b.side⟩ : BlockEvent)
        else ⟨"comparison:collapsed", 1, b.side⟩) :=
  ⟨(c8_events_per_block exComp 0 (by decide)).1,
   (c8_events_per_block exComp 0 (by decide)).2 1 (by decide)⟩

end Theme247
